import Mathlib

/-!
Verification of the decision engine of the Smart-Agriculture-Platform
repository (src/decision_engine.py).

The engine is a pure function from a sensor reading (soil moisture,
temperature, humidity, all numeric) and a crop profile to three structured
recommendations: irrigation, fertilizer and alerts.  Python floats are
modelled by exact rationals; the Python built-in `round(x, 2)` is modelled
by round-half-to-even on rationals, and the `%.1f` / `%.0f` string
formattings by the corresponding rational rounding.
-/

/-- Round-half-to-even of a rational to an integer, modelling the Python
built-in `round` on the exact value. -/
def roundHalfEven (x : ℚ) : ℤ :=
  let f : ℤ := ⌊x⌋
  if x - f < 1/2 then f
  else if (1:ℚ)/2 < x - f then f + 1
  else if f % 2 = 0 then f else f + 1

/-- Python `round(x, 2)`. -/
def round2 (x : ℚ) : ℚ := (roundHalfEven (x * 100) : ℚ) / 100

/-- Python format `%.0f`. -/
def fmt0 (x : ℚ) : String := toString (roundHalfEven x)

/-- Python format `%.1f`. -/
def fmt1 (x : ℚ) : String :=
  let n : ℤ := roundHalfEven (x * 10)
  (if n < 0 then "-" else "") ++ toString (n.natAbs / 10) ++ "." ++ toString (n.natAbs % 10)

/-- Python `sep.join(parts)`. -/
def joinSep (sep : String) : List String → String
  | [] => ""
  | [a] => a
  | a :: b :: rest => a ++ sep ++ joinSep sep (b :: rest)

/-- The reasoning strings of the engine are built as `". ".join(parts) + "."`. -/
def joinDot (parts : List String) : String := joinSep ". " parts ++ "."

/-- Python `str.lower()` (character-wise lowering; the registry keys are ASCII). -/
def strLower (s : String) : String := String.mk (s.data.map Char.toLower)

/-- `CropProfile`: optimal conditions for a crop type
(decision_engine.py lines 9-22).  Each range is a (min, max) pair. -/
structure CropProfile where
  name : String
  optimal_moisture : ℚ × ℚ
  optimal_temp : ℚ × ℚ
  optimal_humidity : ℚ × ℚ
deriving DecidableEq

/-- The "default" entry of `CROP_PROFILES` (decision_engine.py line 31). -/
def defaultCrop : CropProfile :=
  { name := "Default Crop", optimal_moisture := (50, 75),
    optimal_temp := (18, 28), optimal_humidity := (60, 80) }

/-- The fixed registry `CROP_PROFILES` (decision_engine.py lines 26-32). -/
def CROP_PROFILES : List (String × CropProfile) :=
  [("tomato", { name := "Tomato", optimal_moisture := (60, 80),
                optimal_temp := (18, 27), optimal_humidity := (60, 80) }),
   ("lettuce", { name := "Lettuce", optimal_moisture := (70, 85),
                 optimal_temp := (15, 20), optimal_humidity := (60, 75) }),
   ("wheat", { name := "Wheat", optimal_moisture := (40, 60),
               optimal_temp := (15, 25), optimal_humidity := (50, 70) }),
   ("corn", { name := "Corn", optimal_moisture := (50, 70),
              optimal_temp := (20, 30), optimal_humidity := (60, 80) }),
   ("default", defaultCrop)]

/-- `DecisionEngine.__init__` profile selection (decision_engine.py line 42):
`CROP_PROFILES.get(crop_type.lower(), CROP_PROFILES["default"])`. -/
def resolve_profile (crop_type : String) : CropProfile :=
  (CROP_PROFILES.lookup (strLower crop_type)).getD defaultCrop

/-- Result of `_evaluate_irrigation`. -/
structure IrrigationResult where
  action : String
  amount : ℚ
  reasoning : String
deriving DecidableEq

/-- `DecisionEngine._evaluate_irrigation` (decision_engine.py lines 58-135). -/
def evaluate_irrigation (crop : CropProfile) (soil_moisture temperature humidity : ℚ) :
    IrrigationResult :=
  let min_moisture := crop.optimal_moisture.1
  let max_moisture := crop.optimal_moisture.2
  if soil_moisture < min_moisture then
    let moisture_deficit := min_moisture - soil_moisture
    let base_amount := moisture_deficit * (5/10)
    let reasoning_parts :=
      ["Soil moisture (" ++ fmt1 soil_moisture ++ "%) is below optimal range (" ++
        fmt1 min_moisture ++ "-" ++ fmt1 max_moisture ++ "%)"]
    let temp_max := crop.optimal_temp.2
    let afterTemp : ℚ × List String :=
      if temperature > temp_max then
        let temp_excess := temperature - temp_max
        let adjustment := 1 + temp_excess * (5/100)
        (base_amount * adjustment,
         reasoning_parts ++
           ["Temperature (" ++ fmt1 temperature ++ "°C) is above optimal, " ++
             "increasing water need by " ++ fmt0 ((adjustment - 1) * 100) ++ "%"])
      else (base_amount, reasoning_parts)
    let afterHum : ℚ × List String :=
      if humidity < 50 then
        (afterTemp.1 * (12/10),
         afterTemp.2 ++
           ["Low humidity (" ++ fmt1 humidity ++ "%) increases evaporation, " ++
             "adjusting water amount by 20%"])
      else afterTemp
    { action := "water", amount := round2 afterHum.1, reasoning := joinDot afterHum.2 }
  else if soil_moisture > max_moisture then
    { action := "reduce", amount := 0,
      reasoning := joinDot
        ["Soil moisture (" ++ fmt1 soil_moisture ++ "%) is above optimal range (" ++
          fmt1 min_moisture ++ "-" ++ fmt1 max_moisture ++ "%)",
         "Excess water can lead to root rot and nutrient leaching"] }
  else
    { action := "no_action", amount := 0,
      reasoning := joinDot
        ["Soil moisture (" ++ fmt1 soil_moisture ++ "%) is within optimal range (" ++
          fmt1 min_moisture ++ "-" ++ fmt1 max_moisture ++ "%)"] ++ " No irrigation needed." }

/-- Result of `_evaluate_fertilizer`. -/
structure FertilizerResult where
  action : String
  type : Option String
  reasoning : String
deriving DecidableEq

/-- `DecisionEngine._evaluate_fertilizer` (decision_engine.py lines 137-199). -/
def evaluate_fertilizer (crop : CropProfile) (soil_moisture temperature : ℚ) :
    FertilizerResult :=
  let min_moisture := crop.optimal_moisture.1
  let max_moisture := crop.optimal_moisture.2
  if soil_moisture < min_moisture * (7/10) then
    { action := "no_action", type := none,
      reasoning := joinDot
        ["Soil moisture (" ++ fmt1 soil_moisture ++ "%) is too low for effective " ++
          "nutrient uptake",
         "Irrigate before applying fertilizer"] }
  else
    let temp_min := crop.optimal_temp.1
    let temp_max := crop.optimal_temp.2
    if temperature < temp_min - 5 then
      { action := "no_action", type := none,
        reasoning := joinDot
          ["Temperature (" ++ fmt1 temperature ++ "°C) is too low for active nutrient uptake"] }
    else if min_moisture ≤ soil_moisture ∧ soil_moisture ≤ max_moisture ∧
        temp_min ≤ temperature ∧ temperature ≤ temp_max then
      { action := "apply", type := some "NPK 10-10-10 (Balanced)",
        reasoning := joinDot
          ["Conditions are optimal for fertilizer application: moisture at " ++
            fmt1 soil_moisture ++ "%, temperature at " ++ fmt1 temperature ++ "°C",
           "Balanced NPK (10-10-10) recommended for general growth"] }
    else
      { action := "no_action", type := none,
        reasoning := "Monitor conditions before fertilizing." }

/-- Result of `_evaluate_alerts`. -/
structure AlertResult where
  level : String
  messages : List String
deriving DecidableEq

/-- `DecisionEngine._evaluate_alerts` (decision_engine.py lines 201-273).
The imperative accumulation of `alerts` and `alert_level` is modelled by
threading a (messages, level) pair through the four if/elif groups in
source order. -/
def evaluate_alerts (crop : CropProfile) (soil_moisture temperature humidity : ℚ) :
    AlertResult :=
  let min_moisture := crop.optimal_moisture.1
  let max_moisture := crop.optimal_moisture.2
  let temp_min := crop.optimal_temp.1
  let temp_max := crop.optimal_temp.2
  let st0 : List String × String := ([], "none")
  let st1 : List String × String :=
    if soil_moisture < min_moisture * (5/10) then
      (st0.1 ++ ["CRITICAL: Severe drought risk! Soil moisture (" ++ fmt1 soil_moisture ++
         "%) is critically low. Immediate irrigation required."], "critical")
    else if soil_moisture < min_moisture * (7/10) then
      (st0.1 ++ ["WARNING: Drought risk detected. Soil moisture (" ++ fmt1 soil_moisture ++
         "%) is approaching critical levels."], "warning")
    else st0
  let st2 : List String × String :=
    if soil_moisture > max_moisture * (13/10) then
      (st1.1 ++ ["CRITICAL: Overwatering detected! Soil moisture (" ++ fmt1 soil_moisture ++
         "%) is excessively high. Risk of root rot and nutrient leaching."], "critical")
    else if soil_moisture > max_moisture * (11/10) then
      (st1.1 ++ ["WARNING: Soil moisture (" ++ fmt1 soil_moisture ++
         "%) is above optimal. Reduce irrigation."],
       if st1.2 = "none" then "warning" else st1.2)
    else st1
  let st3 : List String × String :=
    if temperature > temp_max + 5 then
      (st2.1 ++ ["WARNING: High temperature stress (" ++ fmt1 temperature ++
         "°C). Consider shade cloth or additional irrigation."],
       if st2.2 = "none" then "warning" else st2.2)
    else if temperature < temp_min - 5 then
      (st2.1 ++ ["WARNING: Low temperature (" ++ fmt1 temperature ++
         "°C) may slow growth. Consider frost protection if below 0°C."],
       if st2.2 = "none" then "warning" else st2.2)
    else st2
  let st4 : List String × String :=
    if soil_moisture < min_moisture ∧ temperature > temp_max ∧ humidity < 50 then
      (st3.1 ++ ["CRITICAL: Multiple stress factors detected (low moisture, high temp, " ++
         "low humidity). Immediate action required!"], "critical")
    else st3
  { level := st4.2, messages := st4.1 }

/-- Result of `analyze_sensor_data`. -/
structure AnalysisResult where
  irrigation : IrrigationResult
  fertilizer : FertilizerResult
  alerts : AlertResult
deriving DecidableEq

/-- `DecisionEngine.analyze_sensor_data` (decision_engine.py lines 44-56). -/
def analyze_sensor_data (crop : CropProfile) (soil_moisture temperature humidity : ℚ) :
    AnalysisResult :=
  { irrigation := evaluate_irrigation crop soil_moisture temperature humidity,
    fertilizer := evaluate_fertilizer crop soil_moisture temperature,
    alerts := evaluate_alerts crop soil_moisture temperature humidity }

/-- `get_recommendations` (decision_engine.py lines 282-292): builds the engine
for the crop type and analyzes the reading. -/
def get_recommendations (soil_moisture temperature humidity : ℚ) (crop_type : String) :
    AnalysisResult :=
  analyze_sensor_data (resolve_profile crop_type) soil_moisture temperature humidity

/-! ### Helper lemmas about the rounding model -/

lemma roundHalfEven_ge_floor (x : ℚ) : ⌊x⌋ ≤ roundHalfEven x := by
  unfold roundHalfEven
  dsimp only
  split_ifs <;> omega

lemma roundHalfEven_le_floor_add_one (x : ℚ) : roundHalfEven x ≤ ⌊x⌋ + 1 := by
  unfold roundHalfEven
  dsimp only
  split_ifs <;> omega

lemma roundHalfEven_mono {x y : ℚ} (h : x ≤ y) : roundHalfEven x ≤ roundHalfEven y := by
  rcases lt_or_le ⌊x⌋ ⌊y⌋ with hf | hf
  · calc roundHalfEven x ≤ ⌊x⌋ + 1 := roundHalfEven_le_floor_add_one x
      _ ≤ ⌊y⌋ := by omega
      _ ≤ roundHalfEven y := roundHalfEven_ge_floor y
  · have hfe : ⌊x⌋ = ⌊y⌋ := le_antisymm (Int.floor_le_floor h) hf
    unfold roundHalfEven
    rw [hfe]
    dsimp only
    split_ifs <;> first
      | omega
      | (exfalso; linarith)

lemma roundHalfEven_zero : roundHalfEven 0 = 0 := by
  unfold roundHalfEven
  norm_num

lemma roundHalfEven_nonneg {x : ℚ} (h : 0 ≤ x) : 0 ≤ roundHalfEven x := by
  have := roundHalfEven_mono h
  rw [roundHalfEven_zero] at this
  exact this

lemma round2_mono {x y : ℚ} (h : x ≤ y) : round2 x ≤ round2 y := by
  unfold round2
  have := roundHalfEven_mono (mul_le_mul_of_nonneg_right h (by norm_num : (0:ℚ) ≤ 100))
  have hc : ((roundHalfEven (x * 100) : ℚ)) ≤ (roundHalfEven (y * 100) : ℚ) := by
    exact_mod_cast this
  linarith

lemma round2_nonneg {x : ℚ} (h : 0 ≤ x) : 0 ≤ round2 x := by
  unfold round2
  have := roundHalfEven_nonneg (by positivity : (0:ℚ) ≤ x * 100)
  have hc : (0:ℚ) ≤ (roundHalfEven (x * 100) : ℚ) := by exact_mod_cast this
  linarith

/-! ### Helper lemmas about strings and lookup -/

lemma string_append_assoc (s t u : String) : s ++ t ++ u = s ++ (t ++ u) := by
  apply String.ext
  simp [String.data_append, List.append_assoc]

lemma lookup_eq_none_of_not_mem {α β : Type} [BEq α] [LawfulBEq α]
    (l : List (α × β)) (a : α) (h : a ∉ l.map Prod.fst) : l.lookup a = none := by
  induction l with
  | nil => rfl
  | cons kv rest ih =>
    simp only [List.map_cons, List.mem_cons] at h
    push_neg at h
    simp only [List.lookup]
    have : (a == kv.1) = false := by
      simp [h.1]
    rw [this]
    exact ih h.2

lemma lookup_mem_values {α β : Type} [BEq α]
    {l : List (α × β)} {a : α} {v : β} (h : l.lookup a = some v) :
    v ∈ l.map Prod.snd := by
  induction l with
  | nil => simp [List.lookup] at h
  | cons kv rest ih =>
    simp only [List.lookup] at h
    rcases hb : (a == kv.1) with _ | _
    · rw [hb] at h
      simp only [List.map_cons, List.mem_cons]
      exact Or.inr (ih h)
    · rw [hb] at h
      simp only [Option.some.injEq] at h
      simp [← h]

/-! ### The water branch of the irrigation rule -/

lemma evaluate_irrigation_water_action (crop : CropProfile) (m t h : ℚ)
    (hm : m < crop.optimal_moisture.1) :
    (evaluate_irrigation crop m t h).action = "water" := by
  unfold evaluate_irrigation
  dsimp only
  rw [if_pos hm]

lemma evaluate_irrigation_water_amount (crop : CropProfile) (m t h : ℚ)
    (hm : m < crop.optimal_moisture.1) :
    (evaluate_irrigation crop m t h).amount =
      round2 ((crop.optimal_moisture.1 - m) * (5/10) *
        (if t > crop.optimal_temp.2 then 1 + (t - crop.optimal_temp.2) * (5/100) else 1) *
        (if h < 50 then (12/10 : ℚ) else 1)) := by
  unfold evaluate_irrigation
  dsimp only
  rw [if_pos hm]
  split_ifs <;> dsimp only <;> first
    | rfl
    | (congr 1; ring)

/-- Claim C1: for every reading with soil moisture m below the profile
minimum, the irrigation recommendation has action "water" and amount equal
to (m_min - m) * 0.5, multiplied by 1 + (t - t_max) * 0.05 when t exceeds
t_max, multiplied by 1.2 when h < 50, rounded to 2 decimal places.  The
concrete instances of the claim (default profile, m=40, t=38, h=70 gives
7.5 and m=40, t=20, h=30 gives 6.0) are checked in the witness. -/
theorem C1_irrigation_water_formula (crop : CropProfile) (m t h : ℚ)
    (hm : m < crop.optimal_moisture.1) :
    (evaluate_irrigation crop m t h).action = "water" ∧
    (evaluate_irrigation crop m t h).amount =
      round2 ((crop.optimal_moisture.1 - m) * (5/10) *
        (if t > crop.optimal_temp.2 then 1 + (t - crop.optimal_temp.2) * (5/100) else 1) *
        (if h < 50 then (12/10 : ℚ) else 1)) :=
  ⟨evaluate_irrigation_water_action crop m t h hm,
   evaluate_irrigation_water_amount crop m t h hm⟩

/-- Witness for C1: both concrete scenarios of the claim, via the theorem. -/
theorem C1_irrigation_water_formula_witness :
    (40:ℚ) < defaultCrop.optimal_moisture.1 ∧
    (evaluate_irrigation defaultCrop 40 38 70).action = "water" ∧
    (evaluate_irrigation defaultCrop 40 38 70).amount = 7.5 ∧
    (evaluate_irrigation defaultCrop 40 20 30).action = "water" ∧
    (evaluate_irrigation defaultCrop 40 20 30).amount = 6 := by
  have h1 := C1_irrigation_water_formula defaultCrop 40 38 70 (by norm_num [defaultCrop])
  have h2 := C1_irrigation_water_formula defaultCrop 40 20 30 (by norm_num [defaultCrop])
  refine ⟨by norm_num [defaultCrop], h1.1, ?_, h2.1, ?_⟩
  · rw [h1.2]
    norm_num [defaultCrop, round2, roundHalfEven]
  · rw [h2.2]
    norm_num [defaultCrop, round2, roundHalfEven]

/-- Counterexample to C2 as stated: with the default profile, the reading
m = 49.996 (strictly below m_min = 50), t = 20, h = 70 yields an irrigation
amount of round(0.002, 2) = 0, which is not strictly greater than 0. -/
theorem C2_counterexample :
    (49996/1000 : ℚ) < defaultCrop.optimal_moisture.1 ∧
    ¬ (0 < (evaluate_irrigation defaultCrop (49996/1000) 20 70).amount) := by
  constructor
  · norm_num [defaultCrop]
  · norm_num [evaluate_irrigation, defaultCrop, round2, roundHalfEven]

/-- Claim C2 (amended): for every reading with m strictly below m_min
(t, h fixed), the irrigation action is "water", the amount is nonnegative
(it rounds down to exactly 0 when the computed quantity is small enough),
and the amount is non-decreasing as m decreases.  The fixed point of the
claim (default profile, m=40, t=20, h=70 gives exactly 5.0) is checked in
the witness. -/
theorem C2_irrigation_amount_monotone (crop : CropProfile) (m m2 t h : ℚ)
    (hm : m < crop.optimal_moisture.1) (hle : m2 ≤ m) :
    (evaluate_irrigation crop m t h).action = "water" ∧
    0 ≤ (evaluate_irrigation crop m t h).amount ∧
    (evaluate_irrigation crop m t h).amount ≤ (evaluate_irrigation crop m2 t h).amount := by
  have hm2 : m2 < crop.optimal_moisture.1 := lt_of_le_of_lt hle hm
  have htf : (0:ℚ) ≤ (if t > crop.optimal_temp.2 then
      1 + (t - crop.optimal_temp.2) * (5/100) else 1) := by
    split_ifs with h1
    · nlinarith
    · norm_num
  have hhf : (0:ℚ) ≤ (if h < 50 then (12/10 : ℚ) else 1) := by
    split_ifs <;> norm_num
  refine ⟨evaluate_irrigation_water_action crop m t h hm, ?_, ?_⟩
  · rw [evaluate_irrigation_water_amount crop m t h hm]
    apply round2_nonneg
    have hbase : (0:ℚ) ≤ (crop.optimal_moisture.1 - m) * (5/10) := by linarith
    exact mul_nonneg (mul_nonneg hbase htf) hhf
  · rw [evaluate_irrigation_water_amount crop m t h hm,
      evaluate_irrigation_water_amount crop m2 t h hm2]
    apply round2_mono
    have hbase : (crop.optimal_moisture.1 - m) * (5/10) ≤
        (crop.optimal_moisture.1 - m2) * (5/10) := by linarith
    exact mul_le_mul_of_nonneg_right (mul_le_mul_of_nonneg_right hbase htf) hhf

/-- Witness for C2 (amended): the fixed point of the claim, via the theorem. -/
theorem C2_irrigation_amount_monotone_witness :
    (40:ℚ) < defaultCrop.optimal_moisture.1 ∧ (40:ℚ) ≤ 40 ∧
    (evaluate_irrigation defaultCrop 40 20 70).action = "water" ∧
    0 ≤ (evaluate_irrigation defaultCrop 40 20 70).amount ∧
    (evaluate_irrigation defaultCrop 40 20 70).amount = 5 := by
  have h := C2_irrigation_amount_monotone defaultCrop 40 40 20 70
    (by norm_num [defaultCrop]) le_rfl
  exact ⟨by norm_num [defaultCrop], le_rfl, h.1, h.2.1,
    by norm_num [evaluate_irrigation, defaultCrop, round2, roundHalfEven]⟩

/-- Claim C4: the fertilizer rule evaluates its conditions in order with the
first match winning: moisture below 0.7 * m_min gives no_action with
reasoning ending in the irrigate-first clause regardless of temperature;
otherwise cold temperature gives no_action; otherwise readings inside both
optimal bands give apply with the balanced NPK type; otherwise no_action
with the fixed monitor reasoning. -/
theorem C4_fertilizer_first_match (crop : CropProfile) (m t : ℚ) :
    (m < crop.optimal_moisture.1 * (7/10) →
      (evaluate_fertilizer crop m t).action = "no_action" ∧
      (evaluate_fertilizer crop m t).type = none ∧
      ∃ pre, (evaluate_fertilizer crop m t).reasoning =
        pre ++ "Irrigate before applying fertilizer.") ∧
    (¬ m < crop.optimal_moisture.1 * (7/10) → t < crop.optimal_temp.1 - 5 →
      (evaluate_fertilizer crop m t).action = "no_action" ∧
      (evaluate_fertilizer crop m t).type = none) ∧
    (¬ m < crop.optimal_moisture.1 * (7/10) → ¬ t < crop.optimal_temp.1 - 5 →
      crop.optimal_moisture.1 ≤ m → m ≤ crop.optimal_moisture.2 →
      crop.optimal_temp.1 ≤ t → t ≤ crop.optimal_temp.2 →
      (evaluate_fertilizer crop m t).action = "apply" ∧
      (evaluate_fertilizer crop m t).type = some "NPK 10-10-10 (Balanced)") ∧
    (¬ m < crop.optimal_moisture.1 * (7/10) → ¬ t < crop.optimal_temp.1 - 5 →
      ¬ (crop.optimal_moisture.1 ≤ m ∧ m ≤ crop.optimal_moisture.2 ∧
          crop.optimal_temp.1 ≤ t ∧ t ≤ crop.optimal_temp.2) →
      (evaluate_fertilizer crop m t).action = "no_action" ∧
      (evaluate_fertilizer crop m t).type = none ∧
      (evaluate_fertilizer crop m t).reasoning = "Monitor conditions before fertilizing.") := by
  refine ⟨?_, ?_, ?_, ?_⟩
  · intro h1
    unfold evaluate_fertilizer
    dsimp only
    rw [if_pos h1]
    refine ⟨rfl, rfl, ⟨"Soil moisture (" ++ fmt1 m ++ "%) is too low for effective " ++
      "nutrient uptake" ++ ". ", ?_⟩⟩
    unfold joinDot joinSep
    rw [string_append_assoc]
    rfl
  · intro h1 h2
    unfold evaluate_fertilizer
    dsimp only
    rw [if_neg h1, if_pos h2]
    exact ⟨rfl, rfl⟩
  · intro h1 h2 h3 h4 h5 h6
    unfold evaluate_fertilizer
    dsimp only
    rw [if_neg h1, if_neg h2, if_pos ⟨h3, h4, h5, h6⟩]
    exact ⟨rfl, rfl⟩
  · intro h1 h2 h3
    unfold evaluate_fertilizer
    dsimp only
    rw [if_neg h1, if_neg h2, if_neg h3]
    exact ⟨rfl, rfl, rfl⟩

/-- Witness for C4: the apply scenario of the claim (default profile, m=60,
t=24) and the moisture-too-low scenario (m=30), via the theorem. -/
theorem C4_fertilizer_first_match_witness :
    ((evaluate_fertilizer defaultCrop 60 24).action = "apply" ∧
      (evaluate_fertilizer defaultCrop 60 24).type = some "NPK 10-10-10 (Balanced)") ∧
    ((evaluate_fertilizer defaultCrop 30 24).action = "no_action" ∧
      ∃ pre, (evaluate_fertilizer defaultCrop 30 24).reasoning =
        pre ++ "Irrigate before applying fertilizer.") := by
  have h1 := (C4_fertilizer_first_match defaultCrop 60 24).2.2.1
    (by norm_num [defaultCrop]) (by norm_num [defaultCrop]) (by norm_num [defaultCrop])
    (by norm_num [defaultCrop]) (by norm_num [defaultCrop]) (by norm_num [defaultCrop])
  have h2 := (C4_fertilizer_first_match defaultCrop 30 24).1 (by norm_num [defaultCrop])
  exact ⟨⟨h1.1, h1.2⟩, ⟨h2.1, h2.2.2⟩⟩

/-- Claim C5: the three irrigation branches (m below m_min; m above m_max;
otherwise) are mutually exclusive and exhaustive when m_min ≤ m_max; a
reading strictly inside the optimal range gives no_action with amount 0,
and a reading above m_max gives reduce with amount 0. -/
theorem C5_irrigation_branches (crop : CropProfile) (m t h : ℚ)
    (hr : crop.optimal_moisture.1 ≤ crop.optimal_moisture.2) :
    ((m < crop.optimal_moisture.1 ∨ m > crop.optimal_moisture.2 ∨
        (crop.optimal_moisture.1 ≤ m ∧ m ≤ crop.optimal_moisture.2)) ∧
      ¬ (m < crop.optimal_moisture.1 ∧ m > crop.optimal_moisture.2) ∧
      ¬ (m < crop.optimal_moisture.1 ∧
          crop.optimal_moisture.1 ≤ m ∧ m ≤ crop.optimal_moisture.2) ∧
      ¬ (m > crop.optimal_moisture.2 ∧
          crop.optimal_moisture.1 ≤ m ∧ m ≤ crop.optimal_moisture.2)) ∧
    (crop.optimal_moisture.1 < m → m < crop.optimal_moisture.2 →
      (evaluate_irrigation crop m t h).action = "no_action" ∧
      (evaluate_irrigation crop m t h).amount = 0) ∧
    (m > crop.optimal_moisture.2 →
      (evaluate_irrigation crop m t h).action = "reduce" ∧
      (evaluate_irrigation crop m t h).amount = 0) := by
  refine ⟨⟨?_, ?_, ?_, ?_⟩, ?_, ?_⟩
  · rcases lt_or_le m crop.optimal_moisture.1 with hc | hc
    · exact Or.inl hc
    · rcases le_or_lt m crop.optimal_moisture.2 with hd | hd
      · exact Or.inr (Or.inr ⟨hc, hd⟩)
      · exact Or.inr (Or.inl hd)
  · rintro ⟨ha, hb⟩
    linarith
  · rintro ⟨ha, hb, -⟩
    linarith
  · rintro ⟨ha, -, hb⟩
    linarith
  · intro h1 h2
    unfold evaluate_irrigation
    dsimp only
    rw [if_neg (by linarith : ¬ m < crop.optimal_moisture.1),
      if_neg (by linarith : ¬ m > crop.optimal_moisture.2)]
    exact ⟨rfl, rfl⟩
  · intro h1
    unfold evaluate_irrigation
    dsimp only
    rw [if_neg (by linarith : ¬ m < crop.optimal_moisture.1), if_pos h1]
    exact ⟨rfl, rfl⟩

/-- Witness for C5: default profile with m=60 strictly inside [50, 75] and
m=80 above 75, via the theorem. -/
theorem C5_irrigation_branches_witness :
    ((evaluate_irrigation defaultCrop 60 20 70).action = "no_action" ∧
      (evaluate_irrigation defaultCrop 60 20 70).amount = 0) ∧
    ((evaluate_irrigation defaultCrop 80 20 70).action = "reduce" ∧
      (evaluate_irrigation defaultCrop 80 20 70).amount = 0) := by
  have h1 := (C5_irrigation_branches defaultCrop 60 20 70 (by norm_num [defaultCrop])).2.1
    (by norm_num [defaultCrop]) (by norm_num [defaultCrop])
  have h2 := (C5_irrigation_branches defaultCrop 80 20 70 (by norm_num [defaultCrop])).2.2
    (by norm_num [defaultCrop])
  exact ⟨h1, h2⟩

/-! ### Severity ordering of alert levels -/

/-- Ordinal severity of an alert level: none < warning < critical. -/
def sevRank : String → ℕ
  | "warning" => 1
  | "critical" => 2
  | _ => 0

/-- The more severe of two alert levels. -/
def maxLevel (a b : String) : String := if sevRank a < sevRank b then b else a

/-- Maximum severity of a list of alert levels. -/
def listMaxLevel (ls : List String) : String := ls.foldl maxLevel "none"

/-- Severities of the alert conditions that trigger in `_evaluate_alerts`,
one entry per triggered branch, in source order. -/
def triggeredAlertLevels (crop : CropProfile) (soil_moisture temperature humidity : ℚ) :
    List String :=
  (if soil_moisture < crop.optimal_moisture.1 * (5/10) then ["critical"]
   else if soil_moisture < crop.optimal_moisture.1 * (7/10) then ["warning"] else []) ++
  (if soil_moisture > crop.optimal_moisture.2 * (13/10) then ["critical"]
   else if soil_moisture > crop.optimal_moisture.2 * (11/10) then ["warning"] else []) ++
  (if temperature > crop.optimal_temp.2 + 5 then ["warning"]
   else if temperature < crop.optimal_temp.1 - 5 then ["warning"] else []) ++
  (if soil_moisture < crop.optimal_moisture.1 ∧ temperature > crop.optimal_temp.2 ∧
      humidity < 50 then ["critical"] else [])

/-- Claim C3: for every reading and every profile with m_min ≤ m_max, the
alert evaluation never downgrades the level: the final alert level equals
the maximum severity among all alert conditions triggered in that call. -/
theorem C3_alert_level_is_max_severity (crop : CropProfile) (m t h : ℚ)
    (hr : crop.optimal_moisture.1 ≤ crop.optimal_moisture.2) :
    (evaluate_alerts crop m t h).level =
      listMaxLevel (triggeredAlertLevels crop m t h) := by
  by_cases hc1 : m < crop.optimal_moisture.1 * (5/10) <;>
  by_cases hc2 : m < crop.optimal_moisture.1 * (7/10) <;>
  by_cases hc3 : m > crop.optimal_moisture.2 * (13/10) <;>
  by_cases hc4 : m > crop.optimal_moisture.2 * (11/10) <;>
  by_cases hc5 : t > crop.optimal_temp.2 + 5 <;>
  by_cases hc6 : t < crop.optimal_temp.1 - 5 <;>
  by_cases hc7 : m < crop.optimal_moisture.1 ∧ t > crop.optimal_temp.2 ∧ h < 50 <;>
  simp [evaluate_alerts, triggeredAlertLevels, listMaxLevel, maxLevel, sevRank,
    hc1, hc2, hc3, hc4, hc5, hc6, hc7]

/-- Witness for C3: default profile, m=20, t=35, h=30, via the theorem;
the resulting level is also evaluated to "critical". -/
theorem C3_alert_level_is_max_severity_witness :
    defaultCrop.optimal_moisture.1 ≤ defaultCrop.optimal_moisture.2 ∧
    (evaluate_alerts defaultCrop 20 35 30).level =
      listMaxLevel (triggeredAlertLevels defaultCrop 20 35 30) ∧
    (evaluate_alerts defaultCrop 20 35 30).level = "critical" := by
  refine ⟨by norm_num [defaultCrop],
    C3_alert_level_is_max_severity defaultCrop 20 35 30 (by norm_num [defaultCrop]), ?_⟩
  norm_num [evaluate_alerts, defaultCrop]

/-- Claim C6: for every reading with m < m_min, t > t_max and h < 50
simultaneously, the final alert level is "critical" and the combined-stress
message is appended to the message list. -/
theorem C6_combined_stress_overrides (crop : CropProfile) (m t h : ℚ)
    (h1 : m < crop.optimal_moisture.1) (h2 : t > crop.optimal_temp.2) (h3 : h < 50) :
    (evaluate_alerts crop m t h).level = "critical" ∧
    ("CRITICAL: Multiple stress factors detected (low moisture, high temp, " ++
      "low humidity). Immediate action required!") ∈ (evaluate_alerts crop m t h).messages := by
  have hc7 : m < crop.optimal_moisture.1 ∧ t > crop.optimal_temp.2 ∧ h < 50 := ⟨h1, h2, h3⟩
  by_cases hc1 : m < crop.optimal_moisture.1 * (5/10) <;>
  by_cases hc2 : m < crop.optimal_moisture.1 * (7/10) <;>
  by_cases hc3 : m > crop.optimal_moisture.2 * (13/10) <;>
  by_cases hc4 : m > crop.optimal_moisture.2 * (11/10) <;>
  by_cases hc5 : t > crop.optimal_temp.2 + 5 <;>
  by_cases hc6 : t < crop.optimal_temp.1 - 5 <;>
  simp [evaluate_alerts, hc1, hc2, hc3, hc4, hc5, hc6, hc7]

/-- Witness for C6: default profile, m=40, t=35, h=30, via the theorem. -/
theorem C6_combined_stress_overrides_witness :
    (evaluate_alerts defaultCrop 40 35 30).level = "critical" ∧
    ("CRITICAL: Multiple stress factors detected (low moisture, high temp, " ++
      "low humidity). Immediate action required!") ∈ (evaluate_alerts defaultCrop 40 35 30).messages :=
  C6_combined_stress_overrides defaultCrop 40 35 30 (by norm_num [defaultCrop])
    (by norm_num [defaultCrop]) (by norm_num)

/-- Claim C10: for every reading and every crop profile, the alert
assessment has level "none" exactly when its message list is empty. -/
theorem C10_level_none_iff_no_messages (crop : CropProfile) (m t h : ℚ) :
    (evaluate_alerts crop m t h).level = "none" ↔
      (evaluate_alerts crop m t h).messages = [] := by
  by_cases hc1 : m < crop.optimal_moisture.1 * (5/10) <;>
  by_cases hc2 : m < crop.optimal_moisture.1 * (7/10) <;>
  by_cases hc3 : m > crop.optimal_moisture.2 * (13/10) <;>
  by_cases hc4 : m > crop.optimal_moisture.2 * (11/10) <;>
  by_cases hc5 : t > crop.optimal_temp.2 + 5 <;>
  by_cases hc6 : t < crop.optimal_temp.1 - 5 <;>
  by_cases hc7 : m < crop.optimal_moisture.1 ∧ t > crop.optimal_temp.2 ∧ h < 50 <;>
  simp [evaluate_alerts, hc1, hc2, hc3, hc4, hc5, hc6, hc7]

/-- Claim C7: profile resolution never fails: any identifier whose
lower-cased form is not a key of the registry (empty string and unknown
names in any casing included) resolves to the "default" profile. -/
theorem C7_unknown_identifier_resolves_to_default (s : String)
    (hs : strLower s ∉ CROP_PROFILES.map Prod.fst) :
    resolve_profile s = defaultCrop := by
  unfold resolve_profile
  rw [lookup_eq_none_of_not_mem _ _ hs]
  rfl

/-- Witness for C7: the empty string and an unknown mixed-case name, via
the theorem. -/
theorem C7_unknown_identifier_resolves_to_default_witness :
    (strLower "" ∉ CROP_PROFILES.map Prod.fst) ∧ resolve_profile "" = defaultCrop ∧
    (strLower "BaNaNa" ∉ CROP_PROFILES.map Prod.fst) ∧
    resolve_profile "BaNaNa" = defaultCrop := by
  refine ⟨by decide, ?_, by decide, ?_⟩
  · exact C7_unknown_identifier_resolves_to_default "" (by decide)
  · exact C7_unknown_identifier_resolves_to_default "BaNaNa" (by decide)

/-- Claim C8: the analysis is total over the numeric domain: for every
real-valued reading and every crop identifier string, the full
recommendation is well formed: the irrigation action is one of water,
reduce, no_action; the fertilizer action one of apply, no_action; the
alert level one of none, warning, critical. -/
theorem C8_analysis_total_well_formed (ct : String) (m t h : ℚ) :
    (get_recommendations m t h ct).irrigation.action ∈ ["water", "reduce", "no_action"] ∧
    (get_recommendations m t h ct).fertilizer.action ∈ ["apply", "no_action"] ∧
    (get_recommendations m t h ct).alerts.level ∈ ["none", "warning", "critical"] := by
  unfold get_recommendations analyze_sensor_data
  dsimp only
  refine ⟨?_, ?_, ?_⟩
  · unfold evaluate_irrigation
    dsimp only
    split_ifs <;> simp
  · unfold evaluate_fertilizer
    dsimp only
    split_ifs <;> simp
  · by_cases hc1 : m < (resolve_profile ct).optimal_moisture.1 * (5/10) <;>
    by_cases hc2 : m < (resolve_profile ct).optimal_moisture.1 * (7/10) <;>
    by_cases hc3 : m > (resolve_profile ct).optimal_moisture.2 * (13/10) <;>
    by_cases hc4 : m > (resolve_profile ct).optimal_moisture.2 * (11/10) <;>
    by_cases hc5 : t > (resolve_profile ct).optimal_temp.2 + 5 <;>
    by_cases hc6 : t < (resolve_profile ct).optimal_temp.1 - 5 <;>
    by_cases hc7 : m < (resolve_profile ct).optimal_moisture.1 ∧
      t > (resolve_profile ct).optimal_temp.2 ∧ h < 50 <;>
    simp [evaluate_alerts, hc1, hc2, hc3, hc4, hc5, hc6, hc7]

/-- Witness for C8: a concrete reading with an unknown crop identifier,
via the theorem. -/
theorem C8_analysis_total_well_formed_witness :
    (get_recommendations 40 38 30 "unknown").irrigation.action ∈
      ["water", "reduce", "no_action"] ∧
    (get_recommendations 40 38 30 "unknown").fertilizer.action ∈ ["apply", "no_action"] ∧
    (get_recommendations 40 38 30 "unknown").alerts.level ∈ ["none", "warning", "critical"] :=
  C8_analysis_total_well_formed "unknown" 40 38 30

/-- The range invariant of a crop profile: min ≤ max for the moisture,
temperature and humidity ranges. -/
def profileWF (p : CropProfile) : Prop :=
  p.optimal_moisture.1 ≤ p.optimal_moisture.2 ∧
  p.optimal_temp.1 ≤ p.optimal_temp.2 ∧
  p.optimal_humidity.1 ≤ p.optimal_humidity.2

/-- Claim C9: every profile of the fixed registry satisfies min ≤ max for
each of its three ranges, and hence so does every profile obtainable via
resolution. -/
theorem C9_registry_profiles_well_formed (s : String) :
    (∀ p ∈ CROP_PROFILES, profileWF p.2) ∧ profileWF (resolve_profile s) := by
  have hall : ∀ p ∈ CROP_PROFILES, profileWF p.2 := by
    intro p hp
    simp only [CROP_PROFILES, List.mem_cons, List.not_mem_nil, or_false] at hp
    rcases hp with h | h | h | h | h <;>
      rw [h] <;> norm_num [profileWF, defaultCrop]
  refine ⟨hall, ?_⟩
  unfold resolve_profile
  cases hl : List.lookup (strLower s) CROP_PROFILES with
  | none =>
    simp only [Option.getD_none]
    norm_num [profileWF, defaultCrop]
  | some p =>
    simp only [Option.getD_some]
    rcases List.mem_map.mp (lookup_mem_values hl) with ⟨kv, hkv, hsnd⟩
    rw [← hsnd]
    exact hall kv hkv

/-- Witness for C9: the profile resolved for "LETTUCE", via the theorem. -/
theorem C9_registry_profiles_well_formed_witness :
    profileWF (resolve_profile "LETTUCE") :=
  (C9_registry_profiles_well_formed "LETTUCE").2
